import Mathlib

/-!
# duckdns_updater: the reconciliation loop of `main.cpp`

A shallow embedding of `src/main.cpp`.

* `http_get`, `resolve_record` and `sleep_for` act on the outside world.  The
  world is an explicit state `W`; a `Net W` gives, for each of the three
  operations, the value returned and the next world.
* Everything the program does that is visible from outside (HTTP requests,
  name resolutions, sleeps, console and syslog output) is recorded, in program
  order, as a list of `Event`s.
* `read_lines`, `clamp_interval` and `startup` embed lines 65-95 of `main`;
  `iteration` embeds one pass through the body of `while (true)` (lines 98-162);
  `cycles` unrolls the first `k` passes of the loop.
* `std::string` is `String`, `int` is `Int` (the only `int` that is computed,
  `interval`, is either 600, 60 or a value `std::stoi` accepted, so it never
  leaves the 32-bit range).  The program only tests strings for emptiness and
  equality, tests for an ASCII key at the start of a line, cuts that key off and
  concatenates; these agree on bytes and on characters.
* The bodies of `http_get` (libcurl, 10 second timeout) and `resolve_record`
  (`getaddrinfo`, `inet_ntop`) are effects on the outside world; the loop only
  uses the `HttpResponse` and the address string they return, which is what
  `Net` provides.
-/

namespace DuckDns

/-! ## Data -/

/-- Return value of `http_get` (`struct HttpResponse`, main.cpp:11-14). -/
structure HttpResponse where
  status_code : Int
  body : String
deriving DecidableEq

/-- Address family passed to `resolve_record` (main.cpp:110 and :124). -/
inductive Family where
  | AF_INET
  | AF_INET6
deriving DecidableEq

/-- The three places in the loop where `http_get` is called:
line 99 (IPv6 endpoint), line 120 (IPv4 endpoint), line 143 (update URL). -/
inductive Site where
  | ipv6_probe
  | ipv4_probe
  | update
deriving DecidableEq

/-- Priorities used with `syslog` in `main`. -/
inductive Priority where
  | LOG_ERR
  | LOG_INFO
deriving DecidableEq

/-- What the program does that is visible from outside, in program order. -/
inductive Event where
  | http_get (site : Site) (url : String)
  | resolve_record (hostname : String) (family : Family)
  | sleep_for (seconds : Int)
  | cout (text : String)
  | syslog (priority : Priority) (message : String)
  | printf (text : String)
deriving DecidableEq

/-- The outside world as seen by `main`: the result of each effectful
operation together with the world after it. -/
structure Net (W : Type) where
  http_get : String → W → HttpResponse × W
  resolve_record : String → Family → W → String × W
  sleep_for : Int → W → W

/-- The variables of `main` that are set from the configuration file
(main.cpp:72-73). -/
structure Config where
  domain : String
  token : String
  interval : Int
  ipv6_endpoint : String
  ipv4_endpoint : String
deriving DecidableEq

/-- The local variables of one pass through the loop body, as they stand at
line 131 (after both detection blocks). -/
structure Locals where
  local_ipv6 : String
  dns_ipv6 : String
  ipv6_changed : Bool
  local_ipv4 : String
  dns_ipv4 : String
  ipv4_enabled : Bool
  ipv4_changed : Bool
deriving DecidableEq

/-! ## String helpers -/

/-- The test `s.empty()` of `std::string`. -/
def empty (s : String) : Bool := s == ""

/-- The test `line.rfind(p, 0) == 0`: `line` begins with `p`. -/
def starts_with (line p : String) : Bool := p.toList.isPrefixOf line.toList

/-- The call `line.substr(pos)`, used only after `starts_with` has matched an
ASCII key of length `pos`. -/
def substr (line : String) (pos : Nat) : String := String.mk (line.toList.drop pos)

/-- What `%s` prints for `s.c_str()`: the characters before the first NUL. -/
def c_str (s : String) : String := String.mk (s.toList.takeWhile (fun c => c.toNat != 0))

/-- What `%d` prints for a `bool` argument. -/
def fmt_bool (b : Bool) : String := if b then "1" else "0"

/-- The C `isspace` test in the default locale. -/
def isspace (c : Char) : Bool :=
  c.toNat == 32 || (9 ≤ c.toNat && c.toNat ≤ 13)

/-- Value of a string of decimal digits. -/
def digits_value (ds : List Char) : Int :=
  ds.foldl (fun acc d => acc * 10 + ((d.toNat : Int) - 48)) 0

/-- The library call `std::stoi(s)` in base 10: leading white space is skipped,
an optional sign is read, then the longest run of digits; `none` stands for a
thrown exception (`std::invalid_argument` when there is no digit,
`std::out_of_range` when the value does not fit an `int`). -/
def stoi (s : String) : Option Int :=
  let cs := s.toList.dropWhile isspace
  let neg := cs.head? == some (Char.ofNat 45)
  let signed := neg || cs.head? == some (Char.ofNat 43)
  let ds := (if signed then cs.drop 1 else cs).takeWhile Char.isDigit
  if ds.isEmpty then none
  else
    let v := if neg then - digits_value ds else digits_value ds
    if v < -2147483648 || 2147483647 < v then none else some v

/-! ## Start-up (main.cpp:65-95) -/

/-- Values of the configuration variables before the file is read
(main.cpp:72-73). -/
def initial_config : Config :=
  { domain := "", token := "", interval := 600, ipv6_endpoint := "", ipv4_endpoint := "" }

/-- One pass through the body of `while (std::getline(cfg, line))`
(main.cpp:77-81); `none` when `std::stoi` throws. -/
def read_line (c : Config) (line : String) : Option Config :=
  if starts_with line "domain=" then some { c with domain := substr line 7 }
  else if starts_with line "token=" then some { c with token := substr line 6 }
  else if starts_with line "interval=" then
    match stoi (substr line 9) with
    | none => none
    | some n => some { c with interval := n }
  else if starts_with line "ipv6_endpoint=" then some { c with ipv6_endpoint := substr line 14 }
  else if starts_with line "ipv4_endpoint=" then some { c with ipv4_endpoint := substr line 14 }
  else some c

/-- The whole `getline` loop (main.cpp:76-82) over the lines of the file. -/
def read_lines : Config → List String → Option Config
  | c, [] => some c
  | c, line :: rest =>
    match read_line c line with
    | none => none
    | some c1 => read_lines c1 rest

/-- The block `if (interval<60) { ... interval=60; }` (main.cpp:84-88). -/
def clamp_interval (c : Config) : Config :=
  if c.interval < 60 then { c with interval := 60 } else c

/-- How `main` leaves its start-up phase. -/
inductive Startup where
  | exited (code : Int)
  | terminated
  | looping (cfg : Config)
deriving DecidableEq

/-- Lines 65-93 of `main`.  The argument is `none` when
`/etc/duckdns.conf` cannot be opened, and otherwise the lines `std::getline`
yields.  `terminated` is the uncaught exception of `std::stoi`; `looping cfg`
means that `while (true)` is entered with these values. -/
def startup (file : Option (List String)) : Startup :=
  match file with
  | none => Startup.exited 1
  | some lines =>
    match read_lines initial_config lines with
    | none => Startup.terminated
    | some c =>
      let c := clamp_interval c
      if empty c.domain || empty c.token || empty c.ipv6_endpoint then Startup.exited 1
      else Startup.looping c

/-- The output of lines 67-68, 85-86 and 91 during start-up. -/
def startup_output (file : Option (List String)) : List Event :=
  match file with
  | none =>
    [Event.syslog Priority.LOG_ERR "Could not open /etc/duckdns.conf",
     Event.printf "Could not open /etc/duckdns.conf\n"]
  | some lines =>
    match read_lines initial_config lines with
    | none => []
    | some c =>
      (if c.interval < 60 then
        [Event.syslog Priority.LOG_ERR "Interval is less then 60; setting to 60",
         Event.printf "Interval is less then 60; setting to 60\n"]
       else []) ++
      (if empty c.domain || empty c.token || empty c.ipv6_endpoint then
        [Event.syslog Priority.LOG_ERR "Missing required config values"]
       else [])

/-! ## The loop body (main.cpp:95-162) -/

/-- The name that is resolved, `domain + ".duckdns.org"` (main.cpp:95). -/
def fqdn (cfg : Config) : String := cfg.domain ++ ".duckdns.org"

/-- The test `!ipv4_endpoint.empty()` (main.cpp:116). -/
def ipv4_enabled (cfg : Config) : Bool := !empty cfg.ipv4_endpoint

/-- Text written by `std::cout << label << status_code << ", Body: " << body << std::endl`
(main.cpp:101, :122, :144). -/
def status_line (label : String) (r : HttpResponse) : String :=
  label ++ toString r.status_code ++ ", Body: " ++ r.body ++ "\n"

/-- Result of the block "IPv4 detection (optional)". -/
structure Ipv4Detection (W : Type) where
  trace : List Event
  world : W
  local_ipv4 : String
  dns_ipv4 : String
  ipv4_changed : Bool

/-- The block "IPv4 detection (optional)" (main.cpp:115-129). -/
def ipv4_detection {W : Type} (net : Net W) (cfg : Config) (w : W) : Ipv4Detection W :=
  if ipv4_enabled cfg then
    let ipv4_resp := net.http_get cfg.ipv4_endpoint w
    let local_ipv4 := ipv4_resp.1.body
    let dns := net.resolve_record (fqdn cfg) Family.AF_INET ipv4_resp.2
    let dns_ipv4 := dns.1
    { trace := [Event.http_get Site.ipv4_probe cfg.ipv4_endpoint,
                Event.cout (status_line "IPv4 - Status: " ipv4_resp.1),
                Event.resolve_record (fqdn cfg) Family.AF_INET],
      world := dns.2,
      local_ipv4 := local_ipv4,
      dns_ipv4 := dns_ipv4,
      ipv4_changed := !empty local_ipv4 && dns_ipv4 != local_ipv4 }
  else
    { trace := [], world := w, local_ipv4 := "", dns_ipv4 := "", ipv4_changed := false }

/-- The string `url` built at main.cpp:133-141. -/
def update_url (cfg : Config) (v : Locals) : String :=
  let url := "https://www.duckdns.org/update?domains=" ++ cfg.domain ++ "&token=" ++ cfg.token
  let url := if v.ipv6_changed then url ++ ("&ipv6=" ++ v.local_ipv6) else url
  if v.ipv4_enabled && !empty v.local_ipv4 then url ++ ("&ip=" ++ v.local_ipv4) else url

/-- The block "Only update if something changed" (main.cpp:132-159): the
events it produces and the world after it. -/
def update_if_changed {W : Type} (net : Net W) (cfg : Config) (v : Locals) (w : W) :
    List Event × W :=
  if v.ipv6_changed || v.ipv4_changed then
    let url := update_url cfg v
    let update_resp := net.http_get url w
    let result :=
      "DuckDNS update: ipv6_changed=" ++ fmt_bool v.ipv6_changed ++
      " ipv4_changed=" ++ fmt_bool v.ipv4_changed ++
      " result=" ++ c_str update_resp.1.body
    ([Event.cout ("URL is: " ++ url ++ "\n"),
      Event.http_get Site.update url,
      Event.cout (status_line "Update - Status: " update_resp.1)] ++
     (if update_resp.1.body == "OK" then [Event.cout "Update was successful\n"] else []) ++
     [Event.syslog Priority.LOG_INFO result,
      Event.printf (result ++ "\n")],
     update_resp.2)
  else
    let shown := if v.ipv4_enabled then c_str v.local_ipv4 else "disabled"
    let msg := "No update needed (IPv6=" ++ c_str v.local_ipv6 ++ " IPv4=" ++ shown ++ ")"
    ([Event.syslog Priority.LOG_INFO msg, Event.printf (msg ++ "\n")], w)

/-- Result of one pass through the loop body: the events, the world after the
final sleep, and the local variables (`none` on the `continue` path of line
107, where they are never declared). -/
structure Iteration (W : Type) where
  trace : List Event
  world : W
  vars : Option Locals

/-- One pass through the body of `while (true)` (main.cpp:98-162). -/
def iteration {W : Type} (net : Net W) (cfg : Config) (w : W) : Iteration W :=
  let ipv6_resp := net.http_get cfg.ipv6_endpoint w
  let local_ipv6 := ipv6_resp.1.body
  let head :=
    [Event.http_get Site.ipv6_probe cfg.ipv6_endpoint,
     Event.cout (status_line "IPv6 - Status: " ipv6_resp.1)]
  if empty local_ipv6 then
    { trace := head ++
        [Event.syslog Priority.LOG_ERR "Failed to fetch IPv6 from endpoint",
         Event.printf "Failed to fetch IPv6 from endpoint\n",
         Event.sleep_for cfg.interval],
      world := net.sleep_for cfg.interval ipv6_resp.2,
      vars := none }
  else
    let dns := net.resolve_record (fqdn cfg) Family.AF_INET6 ipv6_resp.2
    let dns_ipv6 := dns.1
    let ipv6_changed := dns_ipv6 != local_ipv6
    let v4 := ipv4_detection net cfg dns.2
    let v : Locals :=
      { local_ipv6 := local_ipv6, dns_ipv6 := dns_ipv6, ipv6_changed := ipv6_changed,
        local_ipv4 := v4.local_ipv4, dns_ipv4 := v4.dns_ipv4,
        ipv4_enabled := ipv4_enabled cfg, ipv4_changed := v4.ipv4_changed }
    let upd := update_if_changed net cfg v v4.world
    { trace := head ++ [Event.resolve_record (fqdn cfg) Family.AF_INET6] ++ v4.trace ++ upd.1 ++
        [Event.printf ("Sleeping for " ++ toString cfg.interval ++ "\n"),
         Event.sleep_for cfg.interval],
      world := net.sleep_for cfg.interval upd.2,
      vars := some v }

/-- The first `k` passes of `while (true)` (main.cpp:97-163), one trace per
pass.  The loop has no exit, so every finite stretch of an execution is the
beginning of `cycles net cfg k w` for some `k`. -/
def cycles {W : Type} (net : Net W) (cfg : Config) : Nat → W → List (List Event)
  | 0, _ => []
  | k + 1, w => (iteration net cfg w).trace :: cycles net cfg k (iteration net cfg w).world

/-- Events of the first `k` passes of the loop, in program order. -/
def run {W : Type} (net : Net W) (cfg : Config) (k : Nat) (w : W) : List Event :=
  (cycles net cfg k w).flatten

/-! ## Vocabulary for the statements -/

/-- Console and syslog output, as opposed to requests, resolutions and sleeps. -/
def Event.is_output : Event → Bool
  | Event.cout _ => true
  | Event.syslog _ _ => true
  | Event.printf _ => true
  | _ => false

/-- A call of `http_get` made at the given place of the loop body. -/
def Event.at_site (s : Site) : Event → Bool
  | Event.http_get s1 _ => s1 == s
  | _ => false

/-- A call to the update provider (the `http_get` of line 143). -/
def Event.is_update (e : Event) : Bool := e.at_site Site.update

/-- A call of `std::this_thread::sleep_for`. -/
def Event.is_sleep : Event → Bool
  | Event.sleep_for _ => true
  | _ => false

/-- A trace with its console and syslog output left out: the requests,
resolutions and sleeps, in program order. -/
def calls (t : List Event) : List Event := t.filter (fun e => !e.is_output)

/-- The requests and resolutions of a trace: `calls` without the sleeps. -/
def external_calls (t : List Event) : List Event :=
  t.filter (fun e => !e.is_output && !e.is_sleep)

/-- Two calls at the same place of the loop body have the sleep `sl` between
them. -/
def separated (s : Site) (sl : Event) (l : List Event) : Prop :=
  ∀ (a b c : List Event) (u1 u2 : String),
    l = a ++ Event.http_get s u1 :: (b ++ Event.http_get s u2 :: c) → sl ∈ b

/-- The lines of the configuration file that begin with `interval=`. -/
def interval_lines (lines : List String) : List String :=
  lines.filter (fun l => starts_with l "interval=")

/-- The interval a configuration file asks for, in the words of the
specification: the integer given by the last `interval=` line, and 600 when the
file has no such line (`none` when that line gives no integer). -/
def configured_interval (lines : List String) : Option Int :=
  match (interval_lines lines).getLast? with
  | none => some 600
  | some l => stoi (substr l 9)

/-! ## Concrete worlds used to exercise the statements -/

/-- A world that always gives the same answers: `probe6` from the endpoint
`"https://v6.test/ip"`, `probe4` from `"https://v4.test/ip"`, the body `"OK"`
from any other URL, and `dns6` / `dns4` from the resolver. -/
def fixed_net (probe6 dns6 probe4 dns4 : String) : Net Unit :=
  { http_get := fun url _ =>
      if url == "https://v6.test/ip" then (HttpResponse.mk 200 probe6, ())
      else if url == "https://v4.test/ip" then (HttpResponse.mk 200 probe4, ())
      else (HttpResponse.mk 200 "OK", ()),
    resolve_record := fun _ family _ =>
      match family with
      | Family.AF_INET6 => (dns6, ())
      | Family.AF_INET => (dns4, ()),
    sleep_for := fun _ _ => () }

/-- A configuration that tracks IPv6 only. -/
def cfg_v6_only : Config :=
  { domain := "myhost", token := "tok", interval := 600,
    ipv6_endpoint := "https://v6.test/ip", ipv4_endpoint := "" }

/-- A configuration that tracks both families. -/
def cfg_dual : Config :=
  { domain := "myhost", token := "tok", interval := 600,
    ipv6_endpoint := "https://v6.test/ip", ipv4_endpoint := "https://v4.test/ip" }

/-- The configuration read from a file that asks for an interval below 60. -/
def cfg_v6_only_60 : Config :=
  { domain := "myhost", token := "tok", interval := 60,
    ipv6_endpoint := "https://v6.test/ip", ipv4_endpoint := "" }

/-! ## Shape of one pass -/

theorem iteration_skip {W : Type} (net : Net W) (cfg : Config) (w : W)
    (h : (net.http_get cfg.ipv6_endpoint w).1.body = "") :
    iteration net cfg w =
      { trace :=
          [Event.http_get Site.ipv6_probe cfg.ipv6_endpoint,
           Event.cout (status_line "IPv6 - Status: " (net.http_get cfg.ipv6_endpoint w).1),
           Event.syslog Priority.LOG_ERR "Failed to fetch IPv6 from endpoint",
           Event.printf "Failed to fetch IPv6 from endpoint\n",
           Event.sleep_for cfg.interval],
        world := net.sleep_for cfg.interval (net.http_get cfg.ipv6_endpoint w).2,
        vars := none } := by
  simp [iteration, empty, h]

theorem calls_append (a b : List Event) : calls (a ++ b) = calls a ++ calls b := by
  simp [calls]

theorem countP_update_calls (t : List Event) :
    t.countP Event.is_update = (calls t).countP Event.is_update := by
  induction t with
  | nil => rfl
  | cons e t ih =>
    cases e <;> simp [calls, List.filter, List.countP_cons, Event.is_output, Event.is_update, Event.at_site] at ih ⊢ <;> omega

theorem mem_calls_http_get (t : List Event) (s : Site) (url : String) :
    Event.http_get s url ∈ t ↔ Event.http_get s url ∈ calls t := by
  simp [calls, Event.is_output]

theorem mem_calls_resolve (t : List Event) (h : String) (f : Family) :
    Event.resolve_record h f ∈ t ↔ Event.resolve_record h f ∈ calls t := by
  simp [calls, Event.is_output]

theorem ipv4_detection_calls {W : Type} (net : Net W) (cfg : Config) (w : W) :
    calls (ipv4_detection net cfg w).trace =
      if ipv4_enabled cfg then
        [Event.http_get Site.ipv4_probe cfg.ipv4_endpoint,
         Event.resolve_record (fqdn cfg) Family.AF_INET]
      else [] := by
  unfold ipv4_detection
  split <;> simp [calls, Event.is_output]

theorem ipv4_detection_changed {W : Type} (net : Net W) (cfg : Config) (w : W) :
    (ipv4_detection net cfg w).ipv4_changed =
      (ipv4_enabled cfg && (!empty (ipv4_detection net cfg w).local_ipv4 &&
        (ipv4_detection net cfg w).dns_ipv4 != (ipv4_detection net cfg w).local_ipv4)) := by
  unfold ipv4_detection
  split <;> simp_all

theorem ipv4_detection_disabled {W : Type} (net : Net W) (cfg : Config) (w : W)
    (h : ipv4_enabled cfg = false) :
    (ipv4_detection net cfg w).local_ipv4 = "" ∧ (ipv4_detection net cfg w).dns_ipv4 = "" := by
  simp [ipv4_detection, h]

theorem ipv4_detection_enabled {W : Type} (net : Net W) (cfg : Config) (w : W)
    (h : ipv4_enabled cfg = true) :
    (ipv4_detection net cfg w).local_ipv4 = (net.http_get cfg.ipv4_endpoint w).1.body ∧
    (ipv4_detection net cfg w).dns_ipv4 =
      (net.resolve_record (fqdn cfg) Family.AF_INET (net.http_get cfg.ipv4_endpoint w).2).1 := by
  simp [ipv4_detection, h]

theorem update_if_changed_calls {W : Type} (net : Net W) (cfg : Config) (v : Locals) (w : W) :
    calls (update_if_changed net cfg v w).1 =
      if v.ipv6_changed || v.ipv4_changed then [Event.http_get Site.update (update_url cfg v)]
      else [] := by
  unfold update_if_changed
  split
  · simp only [calls_append]
    split <;> simp [calls, Event.is_output]
  · simp [calls, Event.is_output]

/-- Everything the later statements use about a pass whose IPv6 probe returned
a non-empty body. -/
theorem iteration_inv {W : Type} (net : Net W) (cfg : Config) (w : W)
    (h : (net.http_get cfg.ipv6_endpoint w).1.body ≠ "") :
    ∃ v, (iteration net cfg w).vars = some v ∧
      v.local_ipv6 = (net.http_get cfg.ipv6_endpoint w).1.body ∧
      v.dns_ipv6 = (net.resolve_record (fqdn cfg) Family.AF_INET6
                      (net.http_get cfg.ipv6_endpoint w).2).1 ∧
      v.ipv6_changed = (v.dns_ipv6 != v.local_ipv6) ∧
      v.ipv4_enabled = ipv4_enabled cfg ∧
      v.ipv4_changed = (v.ipv4_enabled && (!empty v.local_ipv4 && v.dns_ipv4 != v.local_ipv4)) ∧
      (v.ipv4_enabled = false → v.local_ipv4 = "" ∧ v.dns_ipv4 = "") ∧
      calls (iteration net cfg w).trace =
        [Event.http_get Site.ipv6_probe cfg.ipv6_endpoint,
         Event.resolve_record (fqdn cfg) Family.AF_INET6] ++
        (if v.ipv4_enabled then
          [Event.http_get Site.ipv4_probe cfg.ipv4_endpoint,
           Event.resolve_record (fqdn cfg) Family.AF_INET]
         else []) ++
        (if v.ipv6_changed || v.ipv4_changed then
          [Event.http_get Site.update (update_url cfg v)]
         else []) ++
        [Event.sleep_for cfg.interval] := by
  have he : empty (net.http_get cfg.ipv6_endpoint w).1.body = false := by
    simpa [empty] using h
  refine ⟨{ local_ipv6 := (net.http_get cfg.ipv6_endpoint w).1.body,
             dns_ipv6 := (net.resolve_record (fqdn cfg) Family.AF_INET6
                            (net.http_get cfg.ipv6_endpoint w).2).1,
             ipv6_changed := (net.resolve_record (fqdn cfg) Family.AF_INET6
                            (net.http_get cfg.ipv6_endpoint w).2).1 !=
                              (net.http_get cfg.ipv6_endpoint w).1.body,
             local_ipv4 := (ipv4_detection net cfg (net.resolve_record (fqdn cfg) Family.AF_INET6
                            (net.http_get cfg.ipv6_endpoint w).2).2).local_ipv4,
             dns_ipv4 := (ipv4_detection net cfg (net.resolve_record (fqdn cfg) Family.AF_INET6
                            (net.http_get cfg.ipv6_endpoint w).2).2).dns_ipv4,
             ipv4_enabled := ipv4_enabled cfg,
             ipv4_changed := (ipv4_detection net cfg (net.resolve_record (fqdn cfg)
                            Family.AF_INET6 (net.http_get cfg.ipv6_endpoint w).2).2).ipv4_changed },
          ?_, rfl, rfl, rfl, rfl, ?_, ?_, ?_⟩
  · simp [iteration, he]
  · exact ipv4_detection_changed net cfg _
  · intro h4
    exact ipv4_detection_disabled net cfg _ h4
  · simp only [iteration, he, Bool.false_eq_true, if_false, calls_append, ipv4_detection_calls,
      update_if_changed_calls]
    simp [calls, Event.is_output]

theorem vars_some_body {W : Type} (net : Net W) (cfg : Config) (w : W) (v : Locals)
    (hv : (iteration net cfg w).vars = some v) :
    (net.http_get cfg.ipv6_endpoint w).1.body ≠ "" := by
  intro h
  rw [iteration_skip net cfg w h] at hv
  simp at hv

/-- The facts of `iteration_inv`, for the locals a pass ended with. -/
theorem iteration_vars {W : Type} (net : Net W) (cfg : Config) (w : W) (v : Locals)
    (hv : (iteration net cfg w).vars = some v) :
    v.local_ipv6 = (net.http_get cfg.ipv6_endpoint w).1.body ∧
    v.local_ipv6 ≠ "" ∧
    v.dns_ipv6 = (net.resolve_record (fqdn cfg) Family.AF_INET6
                    (net.http_get cfg.ipv6_endpoint w).2).1 ∧
    v.ipv6_changed = (v.dns_ipv6 != v.local_ipv6) ∧
    v.ipv4_enabled = ipv4_enabled cfg ∧
    v.ipv4_changed = (v.ipv4_enabled && (!empty v.local_ipv4 && v.dns_ipv4 != v.local_ipv4)) ∧
    (v.ipv4_enabled = false → v.local_ipv4 = "" ∧ v.dns_ipv4 = "") ∧
    calls (iteration net cfg w).trace =
      [Event.http_get Site.ipv6_probe cfg.ipv6_endpoint,
       Event.resolve_record (fqdn cfg) Family.AF_INET6] ++
      (if v.ipv4_enabled then
        [Event.http_get Site.ipv4_probe cfg.ipv4_endpoint,
         Event.resolve_record (fqdn cfg) Family.AF_INET]
       else []) ++
      (if v.ipv6_changed || v.ipv4_changed then
        [Event.http_get Site.update (update_url cfg v)]
       else []) ++
      [Event.sleep_for cfg.interval] := by
  have hb := vars_some_body net cfg w v hv
  obtain ⟨v1, h1, h2, h3, h4, h5, h6, h7, h8⟩ := iteration_inv net cfg w hb
  have : v1 = v := by rw [h1] at hv; exact Option.some.inj hv
  subst this
  exact ⟨h2, h2 ▸ hb, h3, h4, h5, h6, h7, h8⟩

/-- The URL of line 133-141 written as one expression. -/
theorem update_url_eq (cfg : Config) (v : Locals) :
    update_url cfg v =
      "https://www.duckdns.org/update?domains=" ++ cfg.domain ++ "&token=" ++ cfg.token ++
        (if v.ipv6_changed = true then "&ipv6=" ++ v.local_ipv6 else "") ++
        (if v.ipv4_enabled = true ∧ v.local_ipv4 ≠ "" then "&ip=" ++ v.local_ipv4 else "") := by
  unfold update_url
  by_cases h6 : v.ipv6_changed = true <;> by_cases h4 : v.ipv4_enabled = true <;>
    by_cases hl : v.local_ipv4 = "" <;> simp [h6, h4, hl, empty, String.append_assoc]

/-- Claim C3. When the IPv6 probe returns an empty body (any status code), the
pass consists of the probe, three lines of output and one sleep of `interval`
seconds: no resolver call, no IPv4 probe, no update call; the next pass starts
from the world right after that sleep. -/
theorem C3_empty_ipv6_body_skips_cycle {W : Type} (net : Net W) (cfg : Config) (w : W)
    (h : (net.http_get cfg.ipv6_endpoint w).1.body = "") :
    (iteration net cfg w).trace =
        [Event.http_get Site.ipv6_probe cfg.ipv6_endpoint,
         Event.cout (status_line "IPv6 - Status: " (net.http_get cfg.ipv6_endpoint w).1),
         Event.syslog Priority.LOG_ERR "Failed to fetch IPv6 from endpoint",
         Event.printf "Failed to fetch IPv6 from endpoint\n",
         Event.sleep_for cfg.interval] ∧
    calls (iteration net cfg w).trace =
        [Event.http_get Site.ipv6_probe cfg.ipv6_endpoint, Event.sleep_for cfg.interval] ∧
    (∀ host family, Event.resolve_record host family ∉ (iteration net cfg w).trace) ∧
    (∀ url, Event.http_get Site.ipv4_probe url ∉ (iteration net cfg w).trace) ∧
    (∀ url, Event.http_get Site.update url ∉ (iteration net cfg w).trace) ∧
    (iteration net cfg w).world =
        net.sleep_for cfg.interval (net.http_get cfg.ipv6_endpoint w).2 := by
  rw [iteration_skip net cfg w h]
  simp [calls, Event.is_output]

theorem C3_empty_ipv6_body_skips_cycle_witness :
    ((fixed_net "" "2001:db8::1" "198.51.100.2" "198.51.100.1").http_get
        cfg_dual.ipv6_endpoint ()).1.body = "" ∧
    calls (iteration (fixed_net "" "2001:db8::1" "198.51.100.2" "198.51.100.1") cfg_dual ()).trace =
        [Event.http_get Site.ipv6_probe "https://v6.test/ip", Event.sleep_for 600] :=
  ⟨by decide,
   (C3_empty_ipv6_body_skips_cycle (fixed_net "" "2001:db8::1" "198.51.100.2" "198.51.100.1")
      cfg_dual () (by decide)).2.1⟩

/-- Claim C1. Whenever a pass calls the update provider, the URL requested is
`"https://www.duckdns.org/update?domains=" + domain + "&token=" + token`,
followed by `"&ipv6=" + local_ipv6` exactly when `ipv6_changed`, followed by
`"&ip=" + local_ipv4` exactly when an IPv4 endpoint is configured and the IPv4
body read in this pass is non-empty (whatever `ipv4_changed` is). -/
theorem C1_update_url_exact {W : Type} (net : Net W) (cfg : Config) (w : W) (v : Locals)
    (url : String)
    (hv : (iteration net cfg w).vars = some v)
    (hu : Event.http_get Site.update url ∈ (iteration net cfg w).trace) :
    url =
      "https://www.duckdns.org/update?domains=" ++ cfg.domain ++ "&token=" ++ cfg.token ++
        (if v.ipv6_changed = true then "&ipv6=" ++ v.local_ipv6 else "") ++
        (if cfg.ipv4_endpoint ≠ "" ∧ v.local_ipv4 ≠ "" then "&ip=" ++ v.local_ipv4 else "") := by
  obtain ⟨-, -, -, -, h5, -, -, h8⟩ := iteration_vars net cfg w v hv
  rw [mem_calls_http_get, h8] at hu
  have hurl : url = update_url cfg v := by
    by_cases h4 : v.ipv4_enabled = true <;>
      by_cases hc : (v.ipv6_changed || v.ipv4_changed) = true <;> simp [h4, hc] at hu
    all_goals exact hu
  rw [hurl, update_url_eq, h5]
  simp [ipv4_enabled, empty]

theorem C1_update_url_exact_witness :
    (iteration (fixed_net "2001:db8::1" "2001:db8::1" "198.51.100.2" "198.51.100.1")
        cfg_dual ()).vars =
      some { local_ipv6 := "2001:db8::1", dns_ipv6 := "2001:db8::1", ipv6_changed := false,
             local_ipv4 := "198.51.100.2", dns_ipv4 := "198.51.100.1",
             ipv4_enabled := true, ipv4_changed := true } ∧
    Event.http_get Site.update
        "https://www.duckdns.org/update?domains=myhost&token=tok&ip=198.51.100.2" ∈
      (iteration (fixed_net "2001:db8::1" "2001:db8::1" "198.51.100.2" "198.51.100.1")
        cfg_dual ()).trace ∧
    "https://www.duckdns.org/update?domains=myhost&token=tok&ip=198.51.100.2" =
      "https://www.duckdns.org/update?domains=" ++ cfg_dual.domain ++ "&token=" ++
        cfg_dual.token ++ "" ++ ("&ip=" ++ "198.51.100.2") :=
  ⟨by decide, by decide,
   C1_update_url_exact (fixed_net "2001:db8::1" "2001:db8::1" "198.51.100.2" "198.51.100.1")
     cfg_dual ()
     { local_ipv6 := "2001:db8::1", dns_ipv6 := "2001:db8::1", ipv6_changed := false,
       local_ipv4 := "198.51.100.2", dns_ipv4 := "198.51.100.1",
       ipv4_enabled := true, ipv4_changed := true }
     "https://www.duckdns.org/update?domains=myhost&token=tok&ip=198.51.100.2"
     (by decide) (by decide)⟩

/-- Claim C2. In a pass whose IPv6 probe body is non-empty, the requests,
resolutions and sleeps are: the IPv6 probe and resolution, the IPv4 probe and
resolution when IPv4 is enabled, one call to the update provider when
`ipv6_changed` or `ipv4_changed` holds and none when both are false, and one
final sleep.  So exactly one update call is made in the first case, and in the
second the pass, after detection, only writes output and sleeps. -/
theorem C2_update_iff_changed {W : Type} (net : Net W) (cfg : Config) (w : W)
    (h : (net.http_get cfg.ipv6_endpoint w).1.body ≠ "") :
    ∃ v, (iteration net cfg w).vars = some v ∧
      (iteration net cfg w).trace.countP Event.is_update =
        (if v.ipv6_changed = true ∨ v.ipv4_changed = true then 1 else 0) ∧
      calls (iteration net cfg w).trace =
        [Event.http_get Site.ipv6_probe cfg.ipv6_endpoint,
         Event.resolve_record (fqdn cfg) Family.AF_INET6] ++
        (if cfg.ipv4_endpoint ≠ "" then
          [Event.http_get Site.ipv4_probe cfg.ipv4_endpoint,
           Event.resolve_record (fqdn cfg) Family.AF_INET]
         else []) ++
        (if v.ipv6_changed = true ∨ v.ipv4_changed = true then
          [Event.http_get Site.update (update_url cfg v)]
         else []) ++
        [Event.sleep_for cfg.interval] := by
  obtain ⟨v, hv, -, -, -, h5, -, -, h8⟩ := iteration_inv net cfg w h
  refine ⟨v, hv, ?_, ?_⟩
  · rw [countP_update_calls, h8]
    by_cases h4 : v.ipv4_enabled = true <;>
      by_cases hc : v.ipv6_changed = true <;> by_cases hd : v.ipv4_changed = true <;>
      simp [h4, hc, hd, Event.is_update, Event.at_site, List.countP_cons]
  · rw [h8, h5]
    simp [ipv4_enabled, empty]

theorem C2_update_iff_changed_witness :
    (((fixed_net "2001:db8::1" "2001:db8::1" "" "").http_get cfg_v6_only.ipv6_endpoint ()).1.body
        ≠ "" ∧
      (iteration (fixed_net "2001:db8::1" "2001:db8::1" "" "") cfg_v6_only ()).trace.countP
        Event.is_update = 0 ∧
      calls (iteration (fixed_net "2001:db8::1" "2001:db8::1" "" "") cfg_v6_only ()).trace =
        [Event.http_get Site.ipv6_probe "https://v6.test/ip",
         Event.resolve_record "myhost.duckdns.org" Family.AF_INET6,
         Event.sleep_for 600]) ∧
    (((fixed_net "2001:db8::2" "2001:db8::1" "" "").http_get cfg_v6_only.ipv6_endpoint ()).1.body
        ≠ "" ∧
      (iteration (fixed_net "2001:db8::2" "2001:db8::1" "" "") cfg_v6_only ()).trace.countP
        Event.is_update = 1 ∧
      calls (iteration (fixed_net "2001:db8::2" "2001:db8::1" "" "") cfg_v6_only ()).trace =
        [Event.http_get Site.ipv6_probe "https://v6.test/ip",
         Event.resolve_record "myhost.duckdns.org" Family.AF_INET6,
         Event.http_get Site.update
           "https://www.duckdns.org/update?domains=myhost&token=tok&ipv6=2001:db8::2",
         Event.sleep_for 600]) ∧
    (∃ v, (iteration (fixed_net "2001:db8::2" "2001:db8::1" "" "") cfg_v6_only ()).vars = some v ∧
      (iteration (fixed_net "2001:db8::2" "2001:db8::1" "" "") cfg_v6_only ()).trace.countP
          Event.is_update =
        (if v.ipv6_changed = true ∨ v.ipv4_changed = true then 1 else 0)) :=
  ⟨⟨by decide, by decide, by decide⟩, ⟨by decide, by decide, by decide⟩,
   (C2_update_iff_changed (fixed_net "2001:db8::2" "2001:db8::1" "" "") cfg_v6_only ()
      (by decide)).imp (fun _ hx => ⟨hx.1, hx.2.1⟩)⟩

/-- Claim C4. For a pass that reaches the IPv4 step, `ipv4_changed` is true
exactly when an IPv4 endpoint is configured, the probed IPv4 body is non-empty
and it differs from the address resolved for the IPv4 family (these two values
being the ones the prober and the resolver returned in this pass).  So it is
false when IPv4 is disabled or the body is empty, whatever the resolver
returned; and with an empty body the pass still reaches the decision, where an
update call is made exactly when `ipv6_changed`. -/
theorem C4_ipv4_changed_iff {W : Type} (net : Net W) (cfg : Config) (w : W) (v : Locals)
    (hv : (iteration net cfg w).vars = some v) :
    (v.ipv4_changed = true ↔
      (cfg.ipv4_endpoint ≠ "" ∧ v.local_ipv4 ≠ "" ∧ v.local_ipv4 ≠ v.dns_ipv4)) ∧
    (cfg.ipv4_endpoint ≠ "" →
      v.local_ipv4 =
        (net.http_get cfg.ipv4_endpoint
          (net.resolve_record (fqdn cfg) Family.AF_INET6
            (net.http_get cfg.ipv6_endpoint w).2).2).1.body ∧
      v.dns_ipv4 =
        (net.resolve_record (fqdn cfg) Family.AF_INET
          (net.http_get cfg.ipv4_endpoint
            (net.resolve_record (fqdn cfg) Family.AF_INET6
              (net.http_get cfg.ipv6_endpoint w).2).2).2).1) ∧
    (cfg.ipv4_endpoint = "" → v.ipv4_changed = false) ∧
    (v.local_ipv4 = "" →
      v.ipv4_changed = false ∧
      (iteration net cfg w).trace.countP Event.is_update =
        (if v.ipv6_changed = true then 1 else 0)) := by
  obtain ⟨-, -, -, -, h5, h6, -, h8⟩ := iteration_vars net cfg w v hv
  have hb := vars_some_body net cfg w v hv
  have he : empty (net.http_get cfg.ipv6_endpoint w).1.body = false := by
    simpa [empty] using hb
  refine ⟨?_, ?_, ?_, ?_⟩
  · rw [h6, h5]
    simp only [ipv4_enabled, empty, Bool.and_eq_true, Bool.not_eq_true', beq_eq_false_iff_ne,
      bne_iff_ne, ne_eq]
    constructor
    · rintro ⟨a, b, c⟩
      exact ⟨a, b, fun e => c e.symm⟩
    · rintro ⟨a, b, c⟩
      exact ⟨a, b, fun e => c e.symm⟩
  · intro h4
    have h4e : ipv4_enabled cfg = true := by simpa [ipv4_enabled, empty] using h4
    simp only [iteration, he, Bool.false_eq_true, if_false] at hv
    have hv1 := Option.some.inj hv
    subst hv1
    exact ipv4_detection_enabled net cfg _ h4e
  · intro h4
    rw [h6, h5]
    simp [ipv4_enabled, empty, h4]
  · intro hl
    have hc : v.ipv4_changed = false := by rw [h6]; simp [hl, empty]
    refine ⟨hc, ?_⟩
    rw [countP_update_calls, h8]
    by_cases h4 : v.ipv4_enabled = true <;> by_cases h6c : v.ipv6_changed = true <;>
      simp [h4, h6c, hc, Event.is_update, Event.at_site, List.countP_cons]

theorem C4_ipv4_changed_iff_witness :
    (iteration (fixed_net "2001:db8::1" "2001:db8::1" "" "198.51.100.1") cfg_dual ()).vars =
      some { local_ipv6 := "2001:db8::1", dns_ipv6 := "2001:db8::1", ipv6_changed := false,
             local_ipv4 := "", dns_ipv4 := "198.51.100.1",
             ipv4_enabled := true, ipv4_changed := false } ∧
    (iteration (fixed_net "2001:db8::1" "2001:db8::1" "" "198.51.100.1") cfg_dual ()).trace.countP
      Event.is_update = 0 :=
  ⟨by decide,
   ((C4_ipv4_changed_iff (fixed_net "2001:db8::1" "2001:db8::1" "" "198.51.100.1") cfg_dual ()
      { local_ipv6 := "2001:db8::1", dns_ipv6 := "2001:db8::1", ipv6_changed := false,
        local_ipv4 := "", dns_ipv4 := "198.51.100.1",
        ipv4_enabled := true, ipv4_changed := false }
      (by decide)).2.2.2 rfl).2⟩

/-- Claim C5. With no IPv4 endpoint configured, `ipv4_changed` is false, the
pass makes no IPv4 probe and no IPv4-family resolution, and its requests and
resolutions are the IPv6 probe alone, or the IPv6 probe and one IPv6-family
resolution of the FQDN, or these two followed by one update call whose URL ends
with the `ipv6` parameter and carries no `ip` parameter. -/
theorem C5_ipv4_disabled_frame {W : Type} (net : Net W) (cfg : Config) (w : W)
    (h4 : cfg.ipv4_endpoint = "") :
    (∀ v, (iteration net cfg w).vars = some v → v.ipv4_changed = false) ∧
    (∀ url, Event.http_get Site.ipv4_probe url ∉ (iteration net cfg w).trace) ∧
    (∀ host, Event.resolve_record host Family.AF_INET ∉ (iteration net cfg w).trace) ∧
    (external_calls (iteration net cfg w).trace =
        [Event.http_get Site.ipv6_probe cfg.ipv6_endpoint] ∨
     external_calls (iteration net cfg w).trace =
        [Event.http_get Site.ipv6_probe cfg.ipv6_endpoint,
         Event.resolve_record (fqdn cfg) Family.AF_INET6] ∨
     ∃ v, (iteration net cfg w).vars = some v ∧
       external_calls (iteration net cfg w).trace =
        [Event.http_get Site.ipv6_probe cfg.ipv6_endpoint,
         Event.resolve_record (fqdn cfg) Family.AF_INET6,
         Event.http_get Site.update
           ("https://www.duckdns.org/update?domains=" ++ cfg.domain ++ "&token=" ++ cfg.token ++
             "&ipv6=" ++ v.local_ipv6)]) := by
  have hd : ipv4_enabled cfg = false := by simp [ipv4_enabled, empty, h4]
  by_cases hb : (net.http_get cfg.ipv6_endpoint w).1.body = ""
  · rw [iteration_skip net cfg w hb]
    simp [external_calls, Event.is_output, Event.is_sleep]
  · obtain ⟨v, hv, -, -, -, h5, h6, -, h8⟩ := iteration_inv net cfg w hb
    have h4v : v.ipv4_enabled = false := by rw [h5, hd]
    have hc : v.ipv4_changed = false := by rw [h6, h4v]; rfl
    have hx : external_calls (iteration net cfg w).trace =
        (calls (iteration net cfg w).trace).filter (fun e => !e.is_sleep) := by
      simp [external_calls, calls, List.filter_filter, Bool.and_comm]
    refine ⟨?_, ?_, ?_, ?_⟩
    · intro v1 hv1
      rw [hv] at hv1
      exact Option.some.inj hv1 ▸ hc
    · intro url
      rw [mem_calls_http_get, h8]
      by_cases h6c : v.ipv6_changed = true <;> simp [h4v, hc, h6c]
    · intro host
      rw [mem_calls_resolve, h8]
      by_cases h6c : v.ipv6_changed = true <;> simp [h4v, hc, h6c]
    · rw [hx, h8]
      by_cases h6c : v.ipv6_changed = true
      · right; right
        refine ⟨v, hv, ?_⟩
        have hu : update_url cfg v =
            "https://www.duckdns.org/update?domains=" ++ cfg.domain ++ "&token=" ++ cfg.token ++
              "&ipv6=" ++ v.local_ipv6 := by
          rw [update_url_eq]
          simp [h6c, h4v, String.append_assoc]
        simp [h4v, hc, h6c, hu, Event.is_sleep]
      · right; left
        simp [h4v, hc, h6c, Event.is_sleep]

theorem C5_ipv4_disabled_frame_witness :
    cfg_v6_only.ipv4_endpoint = "" ∧
    (∀ url, Event.http_get Site.ipv4_probe url ∉
      (iteration (fixed_net "2001:db8::2" "2001:db8::1" "198.51.100.2" "198.51.100.1")
        cfg_v6_only ()).trace) ∧
    external_calls
      (iteration (fixed_net "2001:db8::2" "2001:db8::1" "198.51.100.2" "198.51.100.1")
        cfg_v6_only ()).trace =
      [Event.http_get Site.ipv6_probe "https://v6.test/ip",
       Event.resolve_record "myhost.duckdns.org" Family.AF_INET6,
       Event.http_get Site.update
         "https://www.duckdns.org/update?domains=myhost&token=tok&ipv6=2001:db8::2"] :=
  ⟨by decide,
   (C5_ipv4_disabled_frame (fixed_net "2001:db8::2" "2001:db8::1" "198.51.100.2" "198.51.100.1")
      cfg_v6_only () (by decide)).2.1,
   by decide⟩

/-- Claim C6, counterexample.  IPv4 tracking is enabled, the resolver returns an
empty address for the IPv4 family, and the IPv4 probe body is empty as well
(IPv6 is unchanged): `ipv4_changed` stays false and the pass makes no update
call. -/
theorem C6_counterexample :
    (iteration (fixed_net "2001:db8::1" "2001:db8::1" "" "") cfg_dual ()).vars =
      some { local_ipv6 := "2001:db8::1", dns_ipv6 := "2001:db8::1", ipv6_changed := false,
             local_ipv4 := "", dns_ipv4 := "",
             ipv4_enabled := true, ipv4_changed := false } ∧
    Event.resolve_record "myhost.duckdns.org" Family.AF_INET ∈
      (iteration (fixed_net "2001:db8::1" "2001:db8::1" "" "") cfg_dual ()).trace ∧
    (iteration (fixed_net "2001:db8::1" "2001:db8::1" "" "") cfg_dual ()).trace.countP
      Event.is_update = 0 := by
  decide

/-- Claim C6, as amended.  In a pass that reaches name resolution: if the
resolver returns an empty address for IPv6, then `ipv6_changed` is true; if
IPv4 tracking is enabled, the probed IPv4 body is non-empty and the resolver
returns an empty address for IPv4, then `ipv4_changed` is true; and in either
case the pass makes one update call. -/
theorem C6_empty_resolution_forces_update {W : Type} (net : Net W) (cfg : Config) (w : W)
    (v : Locals)
    (hv : (iteration net cfg w).vars = some v)
    (h : v.dns_ipv6 = "" ∨ (cfg.ipv4_endpoint ≠ "" ∧ v.local_ipv4 ≠ "" ∧ v.dns_ipv4 = "")) :
    (v.dns_ipv6 = "" → v.ipv6_changed = true) ∧
    (cfg.ipv4_endpoint ≠ "" ∧ v.local_ipv4 ≠ "" ∧ v.dns_ipv4 = "" → v.ipv4_changed = true) ∧
    (iteration net cfg w).trace.countP Event.is_update = 1 ∧
    Event.http_get Site.update (update_url cfg v) ∈ (iteration net cfg w).trace := by
  obtain ⟨-, hne, -, h4, h5, h6, -, h8⟩ := iteration_vars net cfg w v hv
  have a6 : v.dns_ipv6 = "" → v.ipv6_changed = true := by
    intro hd
    rw [h4, hd]
    simpa using fun e => hne e.symm
  have a4 : cfg.ipv4_endpoint ≠ "" ∧ v.local_ipv4 ≠ "" ∧ v.dns_ipv4 = "" →
      v.ipv4_changed = true := by
    rintro ⟨he, hl, hd⟩
    rw [h6, h5, hd]
    simp only [ipv4_enabled, empty, Bool.and_eq_true, Bool.not_eq_true', beq_eq_false_iff_ne,
      bne_iff_ne, ne_eq]
    exact ⟨he, hl, fun e => hl e.symm⟩
  have hc : (v.ipv6_changed || v.ipv4_changed) = true := by
    rcases h with h | h
    · simp [a6 h]
    · simp [a4 h]
  refine ⟨a6, a4, ?_, ?_⟩
  · rw [countP_update_calls, h8]
    by_cases h4e : v.ipv4_enabled = true <;>
      simp [h4e, hc, Event.is_update, Event.at_site, List.countP_cons]
  · rw [mem_calls_http_get, h8]
    simp [hc]

theorem C6_empty_resolution_forces_update_witness :
    (iteration (fixed_net "2001:db8::1" "2001:db8::1" "198.51.100.2" "") cfg_dual ()).vars =
      some { local_ipv6 := "2001:db8::1", dns_ipv6 := "2001:db8::1", ipv6_changed := false,
             local_ipv4 := "198.51.100.2", dns_ipv4 := "",
             ipv4_enabled := true, ipv4_changed := true } ∧
    (iteration (fixed_net "2001:db8::1" "2001:db8::1" "198.51.100.2" "") cfg_dual ()).trace.countP
      Event.is_update = 1 :=
  ⟨by decide,
   (C6_empty_resolution_forces_update
      (fixed_net "2001:db8::1" "2001:db8::1" "198.51.100.2" "") cfg_dual ()
      { local_ipv6 := "2001:db8::1", dns_ipv6 := "2001:db8::1", ipv6_changed := false,
        local_ipv4 := "198.51.100.2", dns_ipv4 := "",
        ipv4_enabled := true, ipv4_changed := true }
      (by decide) (Or.inr (by decide))).2.2.1⟩

/-- Claim C8. For all strings `dnsIpv6` (what the resolver returned for the IPv6
family) and `localIpv6` (the non-empty body of the IPv6 probe), the pass sets
`ipv6_changed` to true exactly when the two strings differ.  The comparison is
on the strings as they are: no address normalisation is applied. -/
theorem C8_ipv6_changed_iff_strings_differ {W : Type} (net : Net W) (cfg : Config) (w : W)
    (dnsIpv6 localIpv6 : String)
    (hlocal : (net.http_get cfg.ipv6_endpoint w).1.body = localIpv6)
    (hdns : (net.resolve_record (fqdn cfg) Family.AF_INET6
              (net.http_get cfg.ipv6_endpoint w).2).1 = dnsIpv6)
    (hne : localIpv6 ≠ "") :
    ∃ v, (iteration net cfg w).vars = some v ∧ v.local_ipv6 = localIpv6 ∧
      v.dns_ipv6 = dnsIpv6 ∧ (v.ipv6_changed = true ↔ dnsIpv6 ≠ localIpv6) := by
  subst hlocal hdns
  obtain ⟨v, hv, h2, h3, h4, -⟩ := iteration_inv net cfg w hne
  refine ⟨v, hv, h2, h3, ?_⟩
  rw [h4, h2, h3]
  simp

theorem C8_ipv6_changed_iff_strings_differ_witness :
    ("2001:0db8:0000:0000:0000:0000:0000:0001" : String) ≠ "" ∧
    (iteration (fixed_net "2001:0db8:0000:0000:0000:0000:0000:0001" "2001:db8::1" "" "")
        cfg_v6_only ()).vars =
      some { local_ipv6 := "2001:0db8:0000:0000:0000:0000:0000:0001",
             dns_ipv6 := "2001:db8::1", ipv6_changed := true,
             local_ipv4 := "", dns_ipv4 := "", ipv4_enabled := false, ipv4_changed := false } ∧
    (∃ v, (iteration (fixed_net "2001:0db8:0000:0000:0000:0000:0000:0001" "2001:db8::1" "" "")
        cfg_v6_only ()).vars = some v ∧
      v.local_ipv6 = "2001:0db8:0000:0000:0000:0000:0000:0001" ∧ v.dns_ipv6 = "2001:db8::1" ∧
      (v.ipv6_changed = true ↔
        ("2001:db8::1" : String) ≠ "2001:0db8:0000:0000:0000:0000:0000:0001")) :=
  ⟨by decide, by decide,
   C8_ipv6_changed_iff_strings_differ
     (fixed_net "2001:0db8:0000:0000:0000:0000:0000:0001" "2001:db8::1" "" "") cfg_v6_only ()
     "2001:db8::1" "2001:0db8:0000:0000:0000:0000:0000:0001" (by decide) (by decide) (by decide)⟩

/-- Claim C10. Whenever a pass calls the update provider, the URL is the part
with `domains` and `token` followed by `"&ipv6=" + local_ipv6`, or by
`"&ip=" + local_ipv4`, or by both in this order, and every address that is
appended is a non-empty string; so the URL is never just the part with
`domains` and `token`. -/
theorem C10_update_has_nonempty_address {W : Type} (net : Net W) (cfg : Config) (w : W)
    (v : Locals) (url : String)
    (hv : (iteration net cfg w).vars = some v)
    (hu : Event.http_get Site.update url ∈ (iteration net cfg w).trace) :
    url ≠ "https://www.duckdns.org/update?domains=" ++ cfg.domain ++ "&token=" ++ cfg.token ∧
    ((v.local_ipv6 ≠ "" ∧
        url = "https://www.duckdns.org/update?domains=" ++ cfg.domain ++ "&token=" ++ cfg.token ++
          "&ipv6=" ++ v.local_ipv6) ∨
     (v.local_ipv4 ≠ "" ∧
        url = "https://www.duckdns.org/update?domains=" ++ cfg.domain ++ "&token=" ++ cfg.token ++
          "&ip=" ++ v.local_ipv4) ∨
     (v.local_ipv6 ≠ "" ∧ v.local_ipv4 ≠ "" ∧
        url = "https://www.duckdns.org/update?domains=" ++ cfg.domain ++ "&token=" ++ cfg.token ++
          "&ipv6=" ++ v.local_ipv6 ++ "&ip=" ++ v.local_ipv4)) := by
  obtain ⟨-, hne, -, -, -, h6, -, h8⟩ := iteration_vars net cfg w v hv
  rw [mem_calls_http_get, h8] at hu
  have hc : (v.ipv6_changed || v.ipv4_changed) = true := by
    by_contra hc
    by_cases h4 : v.ipv4_enabled = true <;> simp [h4, hc] at hu
  have hurl : url = update_url cfg v := by
    by_cases h4 : v.ipv4_enabled = true <;> simp [h4, hc] at hu
    all_goals exact hu
  have h4c : v.ipv4_changed = true → v.ipv4_enabled = true ∧ v.local_ipv4 ≠ "" := by
    intro hx
    rw [h6] at hx
    simp only [empty, Bool.and_eq_true, Bool.not_eq_true', beq_eq_false_iff_ne, ne_eq] at hx
    exact ⟨hx.1, hx.2.1⟩
  have l6 : ("&ipv6=" : String).length = 6 := by decide
  have l4 : ("&ip=" : String).length = 4 := by decide
  rw [hurl, update_url_eq]
  by_cases c6 : v.ipv6_changed = true
  · by_cases c4 : v.ipv4_enabled = true ∧ v.local_ipv4 ≠ ""
    · rw [if_pos c6, if_pos c4]
      refine ⟨?_, Or.inr (Or.inr ⟨hne, c4.2, ?_⟩)⟩
      · intro e
        have := congrArg String.length e
        simp only [String.length_append, l6, l4] at this
        omega
      · simp only [String.append_assoc]
    · rw [if_pos c6, if_neg c4, String.append_empty]
      refine ⟨?_, Or.inl ⟨hne, ?_⟩⟩
      · intro e
        have := congrArg String.length e
        simp only [String.length_append, l6] at this
        omega
      · simp only [String.append_assoc]
  · have c4 : v.ipv4_enabled = true ∧ v.local_ipv4 ≠ "" := by
      apply h4c
      simpa [c6] using hc
    rw [if_neg c6, if_pos c4, String.append_empty]
    refine ⟨?_, Or.inr (Or.inl ⟨c4.2, ?_⟩)⟩
    · intro e
      have := congrArg String.length e
      simp only [String.length_append, l4] at this
      omega
    · simp only [String.append_assoc]

theorem C10_update_has_nonempty_address_witness :
    Event.http_get Site.update
        "https://www.duckdns.org/update?domains=myhost&token=tok&ipv6=2001:db8::2&ip=198.51.100.2" ∈
      (iteration (fixed_net "2001:db8::2" "2001:db8::1" "198.51.100.2" "198.51.100.2")
        cfg_dual ()).trace ∧
    ("https://www.duckdns.org/update?domains=myhost&token=tok&ipv6=2001:db8::2&ip=198.51.100.2"
        : String) ≠
      "https://www.duckdns.org/update?domains=" ++ cfg_dual.domain ++ "&token=" ++ cfg_dual.token :=
  ⟨by decide,
   (C10_update_has_nonempty_address
      (fixed_net "2001:db8::2" "2001:db8::1" "198.51.100.2" "198.51.100.2") cfg_dual ()
      { local_ipv6 := "2001:db8::2", dns_ipv6 := "2001:db8::1", ipv6_changed := true,
        local_ipv4 := "198.51.100.2", dns_ipv4 := "198.51.100.2",
        ipv4_enabled := true, ipv4_changed := false }
      "https://www.duckdns.org/update?domains=myhost&token=tok&ipv6=2001:db8::2&ip=198.51.100.2"
      (by decide) (by decide)).1⟩

/-! ## The configured interval -/

theorem starts_with_head (line p : String) (a : Char) (rest : List Char)
    (hp : p.toList = a :: rest) (h : starts_with line p = true) :
    line.toList.head? = some a := by
  unfold starts_with at h
  rw [hp] at h
  cases hl : line.toList with
  | nil => rw [hl] at h; simp [List.isPrefixOf] at h
  | cons c cs =>
    rw [hl] at h
    simp only [List.isPrefixOf, Bool.and_eq_true, beq_iff_eq] at h
    simp [h.1]

theorem not_interval_of_domain (line : String) (h : starts_with line "domain=" = true) :
    starts_with line "interval=" = false := by
  by_contra hc
  have h1 := starts_with_head line "domain=" 'd' "omain=".toList (by decide) h
  have h2 := starts_with_head line "interval=" 'i' "nterval=".toList (by decide)
    (by simpa using hc)
  rw [h1] at h2
  exact absurd h2 (by decide)

theorem not_interval_of_token (line : String) (h : starts_with line "token=" = true) :
    starts_with line "interval=" = false := by
  by_contra hc
  have h1 := starts_with_head line "token=" 't' "oken=".toList (by decide) h
  have h2 := starts_with_head line "interval=" 'i' "nterval=".toList (by decide)
    (by simpa using hc)
  rw [h1] at h2
  exact absurd h2 (by decide)

/-- What one line does to `interval`. -/
theorem read_line_interval (c c1 : Config) (line : String) (h : read_line c line = some c1) :
    (starts_with line "interval=" = true ∧ stoi (substr line 9) = some c1.interval) ∨
    (starts_with line "interval=" = false ∧ c1.interval = c.interval) := by
  unfold read_line at h
  by_cases hd : starts_with line "domain=" = true
  · rw [if_pos hd] at h
    right
    exact ⟨not_interval_of_domain line hd, by rw [← Option.some.inj h]⟩
  · rw [if_neg hd] at h
    by_cases ht : starts_with line "token=" = true
    · rw [if_pos ht] at h
      right
      exact ⟨not_interval_of_token line ht, by rw [← Option.some.inj h]⟩
    · rw [if_neg ht] at h
      by_cases hi : starts_with line "interval=" = true
      · rw [if_pos hi] at h
        left
        cases hs : stoi (substr line 9) with
        | none => rw [hs] at h; simp at h
        | some n =>
          rw [hs] at h
          simp only [Option.some.injEq] at h
          exact ⟨hi, by rw [← h]⟩
      · rw [if_neg hi] at h
        right
        refine ⟨by simpa using hi, ?_⟩
        by_cases h6 : starts_with line "ipv6_endpoint=" = true
        · rw [if_pos h6] at h
          rw [← Option.some.inj h]
        · rw [if_neg h6] at h
          by_cases h4 : starts_with line "ipv4_endpoint=" = true
          · rw [if_pos h4] at h
            rw [← Option.some.inj h]
          · rw [if_neg h4] at h
            rw [← Option.some.inj h]

/-- After the `getline` loop, `interval` holds what the last `interval=` line
gave, or its earlier value when there is no such line. -/
theorem read_lines_interval (lines : List String) :
    ∀ c c1 : Config, read_lines c lines = some c1 →
      (match (interval_lines lines).getLast? with
       | none => some c.interval
       | some l => stoi (substr l 9)) = some c1.interval := by
  induction lines with
  | nil =>
    intro c c1 h
    simp only [read_lines, Option.some.injEq] at h
    simp [interval_lines, h]
  | cons line rest ih =>
    intro c c1 h
    simp only [read_lines] at h
    cases hr : read_line c line with
    | none => rw [hr] at h; simp at h
    | some c2 =>
      rw [hr] at h
      simp only at h
      have ih2 := ih c2 c1 h
      rcases read_line_interval c c2 line hr with ⟨hi, hs⟩ | ⟨hi, hs⟩
      · have hl : interval_lines (line :: rest) = line :: interval_lines rest := by
          simp [interval_lines, List.filter_cons, hi]
        rw [hl]
        cases hrest : interval_lines rest with
        | nil =>
          rw [hrest] at ih2
          simp only [List.getLast?_nil] at ih2
          simp only [List.getLast?_singleton]
          rw [hs, ih2]
        | cons b l =>
          rw [hrest] at ih2
          rw [List.getLast?_cons_cons]
          exact ih2
      · have hl : interval_lines (line :: rest) = interval_lines rest := by
          simp [interval_lines, List.filter_cons, hi]
        rw [hl, ← hs]
        exact ih2

theorem mem_calls_sleep (t : List Event) (s : Int) :
    Event.sleep_for s ∈ t ↔ Event.sleep_for s ∈ calls t := by
  simp [calls, Event.is_output]

/-- Every sleep of a pass lasts `interval` seconds. -/
theorem iteration_sleep {W : Type} (net : Net W) (cfg : Config) (w : W) (s : Int)
    (h : Event.sleep_for s ∈ (iteration net cfg w).trace) : s = cfg.interval := by
  by_cases hb : (net.http_get cfg.ipv6_endpoint w).1.body = ""
  · rw [iteration_skip net cfg w hb] at h
    simpa using h
  · obtain ⟨v, -, -, -, -, -, -, -, h8⟩ := iteration_inv net cfg w hb
    rw [mem_calls_sleep, h8] at h
    by_cases h4 : v.ipv4_enabled = true <;>
      by_cases hc : (v.ipv6_changed || v.ipv4_changed) = true <;> simp [h4, hc] at h
    all_goals exact h

theorem run_succ {W : Type} (net : Net W) (cfg : Config) (k : Nat) (w : W) :
    run net cfg (k + 1) w =
      (iteration net cfg w).trace ++ run net cfg k (iteration net cfg w).world := by
  simp [run, cycles]

theorem run_sleep {W : Type} (net : Net W) (cfg : Config) (k : Nat) :
    ∀ (w : W) (s : Int), Event.sleep_for s ∈ run net cfg k w → s = cfg.interval := by
  induction k with
  | zero => intro w s h; simp [run, cycles] at h
  | succ k ih =>
    intro w s h
    rw [run_succ, List.mem_append] at h
    rcases h with h | h
    · exact iteration_sleep net cfg w s h
    · exact ih _ s h

/-- Claim C9. When start-up reaches the loop with configuration `cfg`, the
`interval=` lines of the file parse, and with `n` the integer given by the last
of them (600 when there is none) the interval of `cfg` is `max 60 n`; it is at
least 60, and every sleep of every run of the loop lasts exactly that long. -/
theorem C9_interval_is_max_60 (lines : List String) (cfg : Config)
    (h : startup (some lines) = Startup.looping cfg) :
    ∃ n, configured_interval lines = some n ∧ cfg.interval = max 60 n ∧ 60 ≤ cfg.interval ∧
      ∀ (W : Type) (net : Net W) (w : W) (k : Nat) (s : Int),
        Event.sleep_for s ∈ run net cfg k w → s = cfg.interval := by
  simp only [startup] at h
  cases hr : read_lines initial_config lines with
  | none => rw [hr] at h; simp at h
  | some c =>
    rw [hr] at h
    simp only at h
    split at h
    · simp at h
    · have hc : clamp_interval c = cfg := by
        simpa using h
      have hn := read_lines_interval lines initial_config c hr
      refine ⟨c.interval, ?_, ?_, ?_, ?_⟩
      · simpa [configured_interval, initial_config] using hn
      · rw [← hc]
        unfold clamp_interval
        split
        · simp only
          omega
        · omega
      · rw [← hc]
        unfold clamp_interval
        split
        · simp only
          omega
        · omega
      · intro W net w k s hs
        exact run_sleep net cfg k w s hs

theorem C9_interval_is_max_60_witness :
    startup (some ["domain=myhost", "interval=900", "token=tok", "interval=-5",
                   "ipv6_endpoint=https://v6.test/ip"]) =
      Startup.looping cfg_v6_only_60 ∧
    configured_interval ["domain=myhost", "interval=900", "token=tok", "interval=-5",
                   "ipv6_endpoint=https://v6.test/ip"] = some (-5) ∧
    (∃ n, configured_interval ["domain=myhost", "interval=900", "token=tok", "interval=-5",
                   "ipv6_endpoint=https://v6.test/ip"] = some n ∧
      cfg_v6_only_60.interval = max 60 n ∧ 60 ≤ cfg_v6_only_60.interval) :=
  ⟨by decide, by decide,
   (C9_interval_is_max_60 ["domain=myhost", "interval=900", "token=tok", "interval=-5",
        "ipv6_endpoint=https://v6.test/ip"] cfg_v6_only_60 (by decide)).imp
     (fun _ hx => ⟨hx.1, hx.2.1, hx.2.2.1⟩)⟩

/-! ## The loop -/

theorem countP_calls (p : Event → Bool) (hp : ∀ e, e.is_output = true → p e = false)
    (t : List Event) : t.countP p = (calls t).countP p := by
  induction t with
  | nil => rfl
  | cons e t ih =>
    by_cases ho : e.is_output = true
    · have hf : calls (e :: t) = calls t := by simp [calls, List.filter_cons, ho]
      rw [hf, List.countP_cons, hp e ho, ih]
      simp
    · have hf : calls (e :: t) = e :: calls t := by simp [calls, List.filter_cons, ho]
      rw [hf, List.countP_cons, List.countP_cons, ih]

theorem at_site_of_output (s : Site) (e : Event) (h : e.is_output = true) :
    e.at_site s = false := by
  cases e <;> simp [Event.is_output, Event.at_site] at h ⊢

theorem is_sleep_of_output (e : Event) (h : e.is_output = true) : e.is_sleep = false := by
  cases e <;> simp [Event.is_output, Event.is_sleep] at h ⊢

/-- A pass calls `http_get` at most once at each of the three places. -/
theorem iteration_site_once {W : Type} (net : Net W) (cfg : Config) (w : W) (s : Site) :
    (iteration net cfg w).trace.countP (Event.at_site s) ≤ 1 := by
  rw [countP_calls _ (at_site_of_output s)]
  by_cases hb : (net.http_get cfg.ipv6_endpoint w).1.body = ""
  · rw [iteration_skip net cfg w hb]
    cases s <;> simp [calls, Event.is_output, Event.at_site, List.countP_cons]
  · obtain ⟨v, -, -, -, -, -, -, -, h8⟩ := iteration_inv net cfg w hb
    rw [h8]
    by_cases h4 : v.ipv4_enabled = true <;>
      by_cases hc : (v.ipv6_changed || v.ipv4_changed) = true <;>
      cases s <;> simp [h4, hc, Event.at_site, List.countP_cons]

/-- A pass sleeps exactly once. -/
theorem iteration_one_sleep {W : Type} (net : Net W) (cfg : Config) (w : W) :
    (iteration net cfg w).trace.countP Event.is_sleep = 1 := by
  rw [countP_calls _ is_sleep_of_output]
  by_cases hb : (net.http_get cfg.ipv6_endpoint w).1.body = ""
  · rw [iteration_skip net cfg w hb]
    simp [calls, Event.is_output, Event.is_sleep, List.countP_cons]
  · obtain ⟨v, -, -, -, -, -, -, -, h8⟩ := iteration_inv net cfg w hb
    rw [h8]
    by_cases h4 : v.ipv4_enabled = true <;>
      by_cases hc : (v.ipv6_changed || v.ipv4_changed) = true <;>
      simp [h4, hc, Event.is_sleep, List.countP_cons]

/-- The last event of a pass is the sleep of `interval` seconds. -/
theorem iteration_last {W : Type} (net : Net W) (cfg : Config) (w : W) :
    (iteration net cfg w).trace.getLast? = some (Event.sleep_for cfg.interval) := by
  by_cases hb : (net.http_get cfg.ipv6_endpoint w).1.body = ""
  · rw [iteration_skip net cfg w hb]
    rfl
  · have he : empty (net.http_get cfg.ipv6_endpoint w).1.body = false := by
      simpa [empty] using hb
    simp only [iteration, he, Bool.false_eq_true, if_false]
    rw [List.getLast?_append]
    rfl

theorem separated_append (s : Site) (sl : Event) (hsl : sl.at_site s = false)
    (t l : List Event) (hlast : t.getLast? = some sl) (hcount : t.countP (Event.at_site s) ≤ 1)
    (hl : separated s sl l) : separated s sl (t ++ l) := by
  intro a b c u1 u2 h
  rcases List.append_eq_append_iff.mp h with ⟨a1, -, h2⟩ | ⟨c1, h1, h2⟩
  · exact hl a1 b c u1 u2 h2
  · cases c1 with
    | nil => exact hl [] b c u1 u2 (by simpa using h2.symm)
    | cons z c2 =>
      simp only [List.cons_append, List.cons.injEq] at h2
      obtain ⟨hz, h3⟩ := h2
      subst hz
      have key : ∀ d, b = c2 ++ d → sl ∈ b := by
        intro d hd
        cases c2 with
        | nil =>
          rw [h1] at hlast
          simp only [List.getLast?_concat, Option.some.injEq] at hlast
          rw [← hlast] at hsl
          simp [Event.at_site] at hsl
        | cons y c3 =>
          rw [h1] at hlast
          have hm : (y :: c3).getLast? = some sl := by
            rw [List.getLast?_append, List.getLast?_cons_cons] at hlast
            cases hq : (y :: c3).getLast? with
            | none => simp at hq
            | some q => rw [hq] at hlast; simpa using hlast
          rw [hd]
          exact List.mem_append_left _ (List.mem_of_mem_getLast? hm)
      rcases List.append_eq_append_iff.mp h3 with ⟨d, h4, h5⟩ | ⟨d, h4, -⟩
      · cases d with
        | nil => exact key [] (by simpa using h4.symm)
        | cons y d1 =>
          simp only [List.cons_append, List.cons.injEq] at h5
          obtain ⟨hy, -⟩ := h5
          subst hy
          rw [h1, h4] at hcount
          simp [List.countP_append, List.countP_cons, Event.at_site] at hcount
          omega
      · exact key d h4

theorem run_separated {W : Type} (net : Net W) (cfg : Config) (s : Site) (k : Nat) :
    ∀ w : W, separated s (Event.sleep_for cfg.interval) (run net cfg k w) := by
  induction k with
  | zero =>
    intro w a b c u1 u2 h
    simp [run, cycles] at h
  | succ k ih =>
    intro w
    rw [run_succ]
    exact separated_append s (Event.sleep_for cfg.interval) rfl _ _ (iteration_last net cfg w)
      (iteration_site_once net cfg w s) (ih _)

theorem cycles_mem {W : Type} (net : Net W) (cfg : Config) (k : Nat) :
    ∀ (w : W) (t : List Event), t ∈ cycles net cfg k w → ∃ w1, t = (iteration net cfg w1).trace := by
  induction k with
  | zero => intro w t h; simp [cycles] at h
  | succ k ih =>
    intro w t h
    simp only [cycles, List.mem_cons] at h
    rcases h with h | h
    · exact ⟨w, h⟩
    · exact ih _ t h

/-- Claim C7. In the first `k` passes of the loop, for every `k`: each pass
ends with the sleep of `interval` seconds as its last event (so no probe,
resolution or update call follows it in that pass), contains exactly one
sleep, and contains at most one update call; and in the whole run, between any
two `http_get` calls made at the same place of the loop body (two update calls,
two probes of the IPv6 endpoint, two probes of the IPv4 endpoint) there is a
sleep of `interval` seconds. -/
theorem C7_one_sleep_ends_each_cycle {W : Type} (net : Net W) (cfg : Config) (k : Nat) (w : W) :
    (cycles net cfg k w).length = k ∧
    (∀ t ∈ cycles net cfg k w,
      t.getLast? = some (Event.sleep_for cfg.interval) ∧
      t.countP Event.is_sleep = 1 ∧
      t.countP Event.is_update ≤ 1) ∧
    (∀ (s : Site) (a b c : List Event) (u1 u2 : String),
      run net cfg k w = a ++ Event.http_get s u1 :: (b ++ Event.http_get s u2 :: c) →
      Event.sleep_for cfg.interval ∈ b) := by
  refine ⟨?_, ?_, ?_⟩
  · induction k generalizing w with
    | zero => rfl
    | succ k ih => simp [cycles, ih]
  · intro t ht
    obtain ⟨w1, rfl⟩ := cycles_mem net cfg k w t ht
    exact ⟨iteration_last net cfg w1, iteration_one_sleep net cfg w1,
      iteration_site_once net cfg w1 Site.update⟩
  · intro s
    exact run_separated net cfg s k w

theorem C7_one_sleep_ends_each_cycle_witness :
    run (fixed_net "2001:db8::2" "2001:db8::1" "" "") cfg_v6_only 2 () =
      [Event.http_get Site.ipv6_probe "https://v6.test/ip",
       Event.cout "IPv6 - Status: 200, Body: 2001:db8::2\n",
       Event.resolve_record "myhost.duckdns.org" Family.AF_INET6,
       Event.cout
         "URL is: https://www.duckdns.org/update?domains=myhost&token=tok&ipv6=2001:db8::2\n"] ++
      Event.http_get Site.update
          "https://www.duckdns.org/update?domains=myhost&token=tok&ipv6=2001:db8::2" ::
        ([Event.cout "Update - Status: 200, Body: OK\n",
          Event.cout "Update was successful\n",
          Event.syslog Priority.LOG_INFO "DuckDNS update: ipv6_changed=1 ipv4_changed=0 result=OK",
          Event.printf "DuckDNS update: ipv6_changed=1 ipv4_changed=0 result=OK\n",
          Event.printf "Sleeping for 600\n",
          Event.sleep_for 600,
          Event.http_get Site.ipv6_probe "https://v6.test/ip",
          Event.cout "IPv6 - Status: 200, Body: 2001:db8::2\n",
          Event.resolve_record "myhost.duckdns.org" Family.AF_INET6,
          Event.cout
            "URL is: https://www.duckdns.org/update?domains=myhost&token=tok&ipv6=2001:db8::2\n"] ++
         Event.http_get Site.update
             "https://www.duckdns.org/update?domains=myhost&token=tok&ipv6=2001:db8::2" ::
           [Event.cout "Update - Status: 200, Body: OK\n",
            Event.cout "Update was successful\n",
            Event.syslog Priority.LOG_INFO
              "DuckDNS update: ipv6_changed=1 ipv4_changed=0 result=OK",
            Event.printf "DuckDNS update: ipv6_changed=1 ipv4_changed=0 result=OK\n",
            Event.printf "Sleeping for 600\n",
            Event.sleep_for 600]) ∧
    Event.sleep_for cfg_v6_only.interval ∈
      [Event.cout "Update - Status: 200, Body: OK\n",
       Event.cout "Update was successful\n",
       Event.syslog Priority.LOG_INFO "DuckDNS update: ipv6_changed=1 ipv4_changed=0 result=OK",
       Event.printf "DuckDNS update: ipv6_changed=1 ipv4_changed=0 result=OK\n",
       Event.printf "Sleeping for 600\n",
       Event.sleep_for 600,
       Event.http_get Site.ipv6_probe "https://v6.test/ip",
       Event.cout "IPv6 - Status: 200, Body: 2001:db8::2\n",
       Event.resolve_record "myhost.duckdns.org" Family.AF_INET6,
       Event.cout
         "URL is: https://www.duckdns.org/update?domains=myhost&token=tok&ipv6=2001:db8::2\n"] :=
  have h := by decide
  ⟨h, (C7_one_sleep_ends_each_cycle (fixed_net "2001:db8::2" "2001:db8::1" "" "") cfg_v6_only 2
      ()).2.2 Site.update _ _ _ _ _ h⟩

end DuckDns
